import Mathlib

/-!
Verification of the session-authenticated real-time event distribution
subsystem of the nurox-backend repository.

The definitions below are a shallow embedding of the JavaScript source:
  * src/services/realtimeService.js  (socket registry, rooms, dispatch)
  * src/services/notificationService.js  (durable notification + push)
  * src/middleware/authMiddleware.js  (HTTP bearer-token validation)
  * src/utils/generateToken.js  (session revocation)
  * src/controllers/authController.js  (logoutAll)
  * the notification controller (getNotifications, markAsRead, markAllAsRead)

Timestamps are modelled as natural numbers, the database tables as lists of
rows, and the JavaScript `Map` used for the socket registry as an
association list with overwrite-on-set semantics.
-/

namespace Nurox

/-- A user row as resolved by the Prisma `include` chains: the attribute
fields that the realtime and auth code reads (`id`, `role`, `isActive`,
and the four optional organization affiliations). -/
structure User where
  id : String
  role : String
  isActive : Bool
  hospitalId : Option String
  pharmacyId : Option String
  laboratoryId : Option String
  insuranceId : Option String
  deriving Repr, DecidableEq

/-- A live socket.io socket: its socket id, the authenticated user attached
by `authenticateSocket` (`socket.user = session.user`), and the set of rooms
it has joined. -/
structure Socket where
  sid : String
  userId : String
  rooms : List String
  deriving Repr, DecidableEq

/-- Lookup (`Map.get`) on the JS `Map<userId, socketId>`. -/
def mapGet (m : List (String × String)) (k : String) : Option String :=
  (m.find? (fun p => p.1 = k)).map Prod.snd

/-- Insertion (`Map.set`): overwrites any existing entry for the key. -/
def mapSet (m : List (String × String)) (k v : String) : List (String × String) :=
  (k, v) :: m.filter (fun p => p.1 ≠ k)

/-- Deletion (`Map.delete`): removes the entry for the key if present. -/
def mapDelete (m : List (String × String)) (k : String) : List (String × String) :=
  m.filter (fun p => p.1 ≠ k)

/-- In-memory state of `RealtimeService`: the connected sockets (with the
rooms the socket.io adapter tracks for them) and the `userSockets` map
(`Map of userId to socket IDs` — in fact one socket id per user). -/
structure RtState where
  sockets : List Socket
  userSockets : List (String × String)
  deriving Repr, DecidableEq

/-- Embedding of `joinUserRooms(socket, user)`, realtimeService.js lines 91-122:
the list of rooms the socket joins, in source order. -/
def joinUserRooms (user : User) : List String :=
  ["user:" ++ user.id, "role:" ++ user.role]
  ++ (match user.hospitalId with
      | some h =>
        ("hospital:" ++ h) ::
          (if user.role = "DOCTOR" then ["hospital:" ++ h ++ ":doctors"] else [])
      | none => [])
  ++ (match user.pharmacyId with
      | some p => ["pharmacy:" ++ p]
      | none => [])
  ++ (match user.laboratoryId with
      | some l => ["laboratory:" ++ l]
      | none => [])
  ++ (match user.insuranceId with
      | some i => ["insurance:" ++ i]
      | none => [])
  ++ (if user.role = "SUPER_ADMIN" then ["super-admin"] else [])

/-- Embedding of `handleConnection(socket)`, lines 70-89: records the user→socket mapping
(`this.userSockets.set(user.id, socket.id)`) and joins the user's rooms. -/
def handleConnection (st : RtState) (user : User) (sid : String) : RtState :=
  { sockets := st.sockets ++ [{ sid := sid, userId := user.id, rooms := joinUserRooms user }],
    userSockets := mapSet st.userSockets user.id sid }

/-- The `disconnect` handler registered by `handleConnection`: the socket
leaves and `this.userSockets.delete(user.id)` removes the user's entry
(whichever socket id it currently holds). -/
def handleDisconnect (st : RtState) (user : User) (sid : String) : RtState :=
  { sockets := st.sockets.filter (fun s => s.sid ≠ sid),
    userSockets := mapDelete st.userSockets user.id }

/-- Room emit (`io.to(room).emit(...)`): the socket ids of the connected sockets that
are members of the room.  socket.io also lets `io.to` target a single
socket by its id, which is modelled by a socket's id being reachable as a
room name equal to `sid`. -/
def emitToRoom (st : RtState) (room : String) : List String :=
  (st.sockets.filter (fun s => s.sid = room ∨ room ∈ s.rooms)).map Socket.sid

/-- Global emit (`io.emit(...)`): delivery to every connected socket. -/
def emitToAll (st : RtState) : List String :=
  st.sockets.map Socket.sid

/-- Embedding of `sendToUser(userId, event, data)`, lines 125-132: looks the user up in
`userSockets`; if an entry exists it emits to that single socket id and
returns `true`, otherwise it returns `false`.  The result is the list of
socket ids the push reaches together with the returned boolean. -/
def sendToUser (st : RtState) (userId : String) : List String × Bool :=
  match mapGet st.userSockets userId with
  | some sid => (emitToRoom st sid, true)
  | none => ([], false)

/-- Embedding of `notifySystemAlert(message, targetRole, organizationId)`, lines 297-316:
role target → role room; organization target → the hospital, pharmacy,
laboratory and insurance rooms of that id; neither → `io.emit` to every
connected socket.  The function never rejects; the result is the list of
socket ids the alert reaches. -/
def notifySystemAlert (st : RtState) (targetRole : Option String)
    (organizationId : Option String) : List String :=
  match targetRole with
  | some r => emitToRoom st ("role:" ++ r)
  | none =>
    match organizationId with
    | some oid =>
      emitToRoom st ("hospital:" ++ oid)
        ++ emitToRoom st ("pharmacy:" ++ oid)
        ++ emitToRoom st ("laboratory:" ++ oid)
        ++ emitToRoom st ("insurance:" ++ oid)
    | none => emitToAll st

/-! ## Notification ledger (Prisma `notification` table) -/

/-- A row of the `notification` table, with the fields the controllers and
services read and write. -/
structure Notification where
  id : Nat
  userId : String
  type : String
  title : String
  message : String
  isRead : Bool
  readAt : Option Nat
  createdAt : Nat
  deriving Repr, DecidableEq

/-- The durable notification store: rows in creation order plus the next
fresh id. -/
structure Ledger where
  rows : List Notification
  nextId : Nat
  deriving Repr, DecidableEq

/-- Row creation (`prisma.notification.create`): appends one row with `isRead = false` and
no `readAt`. -/
def ledgerCreate (db : Ledger) (userId type title message : String) (now : Nat) :
    Ledger × Notification :=
  let n : Notification :=
    { id := db.nextId, userId := userId, type := type, title := title,
      message := message, isRead := false, readAt := none, createdAt := now }
  ({ rows := db.rows ++ [n], nextId := db.nextId + 1 }, n)

/-- Embedding of `createNotification(data)`, notificationService.js lines 16-47.
`writeOk` models whether the `prisma.notification.create` call succeeds;
`io` is the Socket.IO server handed over by `setSocketIO` (`none` when it
was never wired, which is what actually happens in this repository).  The
durable row is written first; only then is the live copy emitted — to the
room `"user_" ++ userId` (underscore).  On a failed write the `catch`
block rethrows, so the call returns an error and emits nothing. -/
def createNotification (writeOk : Bool) (db : Ledger) (io : Option RtState)
    (userId type title message : String) (now : Nat) :
    Except String (Ledger × List String × Notification) :=
  if writeOk then
    let created := ledgerCreate db userId type title message now
    let pushed :=
      match io with
      | some st => emitToRoom st ("user_" ++ userId)
      | none => []
    .ok (created.1, pushed, created.2)
  else
    .error "Create notification error"

/-- The `(title, message)` pair chosen by the `switch (type)` in
`sendPrescriptionNotification` lines 77-93. -/
def prescriptionText (type prescriptionNumber doctorName : String) : String × String :=
  if type = "PRESCRIPTION_READY" then
    ("Prescription Ready",
     "Your prescription #" ++ prescriptionNumber ++ " is ready for pickup")
  else if type = "PRESCRIPTION_CREATED" then
    ("New Prescription",
     "Dr. " ++ doctorName ++ " has issued a new prescription for you")
  else if type = "PRESCRIPTION_DISPENSED" then
    ("Prescription Dispensed",
     "Your prescription #" ++ prescriptionNumber ++ " has been dispensed")
  else
    ("Prescription Update",
     "Your prescription #" ++ prescriptionNumber ++ " has been updated")

/-- Embedding of `sendPrescriptionNotification(prescription, type)`, lines 73-117: calls
`createNotification` for the patient inside a `try` block whose `catch`
only logs — a failure of the durable write is swallowed and the function
resolves normally with the ledger unchanged and nothing pushed. -/
def sendPrescriptionNotification (writeOk : Bool) (db : Ledger) (io : Option RtState)
    (patientId type prescriptionNumber doctorName : String) (now : Nat) :
    Except String (Ledger × List String) :=
  let text := prescriptionText type prescriptionNumber doctorName
  match createNotification writeOk db io patientId type text.1 text.2 now with
  | .ok (db2, pushed, _) => .ok (db2, pushed)
  | .error _ => .ok (db, [])

/-! ## Token & session store, HTTP middleware, socket handshake -/

/-- A `session` row joined with its owning user, as returned by the
`prisma.session.findUnique({ include: { user: ... } })` calls. -/
structure SessionRow where
  token : String
  expiresAt : Nat
  user : User
  deriving Repr, DecidableEq

/-- Result of the HTTP middleware: either the resolved user is attached to
the request, or the request is rejected with an HTTP status code and a
response body message. -/
inductive AuthResult where
  | ok (user : User)
  | err (status : Nat) (message : String)
  deriving Repr, DecidableEq

/-- Embedding of `authMiddleware`, authMiddleware.js lines 6-66.  `jwtValid` models
`jwt.verify` (signature and JWT-expiry check); `token` is the bearer token
extracted from the `Authorization` header, `none` when the header is
missing or does not start with `Bearer `.  The session lookup fails with
401 `Invalid or expired token` when no row exists or `expiresAt < now`,
and with 401 `Account is disabled` when the owning user is inactive. -/
def authMiddleware (jwtValid : String → Bool) (db : List SessionRow) (now : Nat)
    (token : Option String) : AuthResult :=
  match token with
  | none => .err 401 "Access token required"
  | some t =>
    if jwtValid t then
      match db.find? (fun s => s.token = t) with
      | none => .err 401 "Invalid or expired token"
      | some s =>
        if s.expiresAt < now then .err 401 "Invalid or expired token"
        else if ¬ s.user.isActive then .err 401 "Account is disabled"
        else .ok s.user
    else
      .err 401 "Invalid token"

/-- Embedding of `authenticateSocket`, realtimeService.js lines 29-68: the handshake
rejects with a reason string, or attaches the resolved user.  Missing
token, JWT failure, and the combined `!session || expired || inactive`
check each have their own message. -/
def authenticateSocket (jwtValid : String → Bool) (db : List SessionRow) (now : Nat)
    (token : Option String) : Except String User :=
  match token with
  | none => .error "Authentication token required"
  | some t =>
    if jwtValid t then
      match db.find? (fun s => s.token = t) with
      | none => .error "Invalid or expired token"
      | some s =>
        if s.expiresAt < now ∨ ¬ s.user.isActive then
          .error "Invalid or expired token"
        else
          .ok s.user
    else
      .error "Authentication failed"

/-- Embedding of `revokeAllUserTokens(userId)`, generateToken.js lines 111-119:
`prisma.session.deleteMany({ where: { userId } })`. -/
def revokeAllUserTokens (db : List SessionRow) (userId : String) : List SessionRow :=
  db.filter (fun s => s.user.id ≠ userId)

/-- Combined durable + in-memory system state: the session table and the
realtime service's registry. -/
structure SysState where
  sessions : List SessionRow
  rt : RtState
  deriving Repr, DecidableEq

/-- Embedding of `logoutAll`, authController.js lines 194-211: awaits
`revokeAllUserTokens(req.user.id)` and responds; it touches nothing else —
in particular it never calls into the realtime service. -/
def logoutAll (sys : SysState) (userId : String) : SysState :=
  { sys with sessions := revokeAllUserTokens sys.sessions userId }

/-- The live connections the realtime registry currently holds for an
identity: the sockets whose authenticated user is that identity. -/
def liveConnections (st : RtState) (userId : String) : List Socket :=
  st.sockets.filter (fun s => s.userId = userId)

/-! ## Notification controller (mark read, list, bulk mark) -/

/-- Result of the single `markAsRead` route: the updated table and row on
success, or the 404 / 403 rejection. -/
inductive MarkResult where
  | ok (db : List Notification) (updated : Notification)
  | notFound
  | forbidden
  deriving Repr, DecidableEq

/-- Embedding of `markAsRead`, notification controller lines 113-158:
`findUnique` by id (404 when absent), ownership check against
`req.user.id` (403 on mismatch), then
`update({ data: { isRead: true, readAt: new Date() } })` — every call
stamps `readAt` with the current time. -/
def markAsRead (db : List Notification) (reqUserId : String) (id : Nat)
    (now : Nat) : MarkResult :=
  match db.find? (fun n => n.id = id) with
  | none => .notFound
  | some n =>
    if n.userId ≠ reqUserId then .forbidden
    else
      .ok (db.map (fun m => if m.id = id then { m with isRead := true, readAt := some now } else m))
        { n with isRead := true, readAt := some now }

/-- Embedding of `markAllAsRead`, lines 161-189:
`updateMany({ where: { userId: req.user.id, isRead: false }, data: { isRead: true, readAt: new Date() } })`. -/
def markAllAsRead (db : List Notification) (reqUserId : String) (now : Nat) :
    List Notification :=
  db.map (fun n =>
    if n.userId = reqUserId ∧ n.isRead = false then
      { n with isRead := true, readAt := some now }
    else n)

/-- The `unreadCount` computed by `getNotifications` lines 27-32:
`prisma.notification.count({ where: { userId: req.user.id, isRead: false } })`. -/
def unreadCount (db : List Notification) (reqUserId : String) : Nat :=
  (db.filter (fun n => n.userId = reqUserId ∧ n.isRead = false)).length

/-! ## Spec-side audience model (for the refinement claim about topics) -/

/-- Modelled from the spec (§4.3 `topicsFor`): `{user:<id>, role:<role>}`
plus one organization topic per non-null affiliation, plus the
hospital-doctors topic iff role is doctor and `hospitalId` is set, plus
the super-admin topic iff role is super-admin.  Stated with the source's
room-name strings; this definition follows the spec's sentence and is
compared against `joinUserRooms`, which follows the source. -/
def topicsFor (u : User) : List String :=
  ["user:" ++ u.id, "role:" ++ u.role]
  ++ (match u.hospitalId with | some h => ["hospital:" ++ h] | none => [])
  ++ (match u.pharmacyId with | some p => ["pharmacy:" ++ p] | none => [])
  ++ (match u.laboratoryId with | some l => ["laboratory:" ++ l] | none => [])
  ++ (match u.insuranceId with | some i => ["insurance:" ++ i] | none => [])
  ++ (match u.hospitalId with
      | some h => if u.role = "DOCTOR" then ["hospital:" ++ h ++ ":doctors"] else []
      | none => [])
  ++ (if u.role = "SUPER_ADMIN" then ["super-admin"] else [])

/-! ## Concrete fixtures used by the scenario theorems -/

/-- A doctor affiliated with hospital `H1` (the spec's scenario actor). -/
def docU1 : User :=
  { id := "U1", role := "DOCTOR", isActive := true, hospitalId := some "H1",
    pharmacyId := none, laboratoryId := none, insuranceId := none }

/-- A second member of hospital `H1` who is not `U1`. -/
def adminU2 : User :=
  { id := "U2", role := "HOSPITAL_ADMIN", isActive := true, hospitalId := some "H1",
    pharmacyId := none, laboratoryId := none, insuranceId := none }

/-- A patient with two devices, used for the revocation scenario. -/
def patU3 : User :=
  { id := "U3", role := "PATIENT", isActive := true, hospitalId := none,
    pharmacyId := none, laboratoryId := none, insuranceId := none }

/-- A doctor with no hospital affiliation. -/
def docNoHosp : User :=
  { id := "U4", role := "DOCTOR", isActive := true, hospitalId := none,
    pharmacyId := none, laboratoryId := none, insuranceId := none }

/-- Same attributes as `docNoHosp` except `isActive`. -/
def docNoHospInactive : User :=
  { id := "U4", role := "DOCTOR", isActive := false, hospitalId := none,
    pharmacyId := none, laboratoryId := none, insuranceId := none }

/-- The empty realtime state. -/
def rt0 : RtState := { sockets := [], userSockets := [] }

/-- The empty ledger. -/
def dbEmpty : Ledger := { rows := [], nextId := 0 }

/-- State after `U1` and then `U2` connect. -/
def rtTwo : RtState := handleConnection (handleConnection rt0 docU1 "s1") adminU2 "s2"

/-! ## String helpers: rooms built from distinct literal tags differ -/

/-- Two strings with different first characters differ; stated for
concatenations whose left parts are literals starting with distinct
characters. -/
theorem ne_of_head_ne {s t : String} (h : s.data.head? ≠ t.data.head?) : s ≠ t :=
  fun e => h (congrArg (fun x => x.data.head?) e)

theorem hosp_ne_user (x y : String) : "hospital:" ++ x ≠ "user:" ++ y := by
  apply ne_of_head_ne
  simp [String.data_append]

theorem hosp_ne_role (x y : String) : "hospital:" ++ x ≠ "role:" ++ y := by
  apply ne_of_head_ne
  simp [String.data_append]

theorem hosp_ne_pharm (x y : String) : "hospital:" ++ x ≠ "pharmacy:" ++ y := by
  apply ne_of_head_ne
  simp [String.data_append]

theorem hosp_ne_lab (x y : String) : "hospital:" ++ x ≠ "laboratory:" ++ y := by
  apply ne_of_head_ne
  simp [String.data_append]

theorem hosp_ne_insur (x y : String) : "hospital:" ++ x ≠ "insurance:" ++ y := by
  apply ne_of_head_ne
  simp [String.data_append]

theorem hosp_ne_super (x : String) : "hospital:" ++ x ≠ "super-admin" := by
  apply ne_of_head_ne
  simp [String.data_append]

/-! ## C5 -/

/-- C5: the topic set computed at connection time (`joinUserRooms`) is
exactly the set described by the spec's `topicsFor` — `{user:<id>,
role:<role>}` plus one organization topic per non-null affiliation, plus
the hospital-doctors topic iff role is doctor and `hospitalId` is set,
plus the super-admin topic iff role is super-admin; the computation is a
pure function of the identity's attributes; and a doctor with no
`hospitalId` is a member of no `hospital:*` topic. -/
theorem C5_topics_exact :
    (∀ (u : User) (r : String), r ∈ joinUserRooms u ↔ r ∈ topicsFor u) ∧
    (∀ u v : User, u.id = v.id → u.role = v.role → u.hospitalId = v.hospitalId →
      u.pharmacyId = v.pharmacyId → u.laboratoryId = v.laboratoryId →
      u.insuranceId = v.insuranceId → joinUserRooms u = joinUserRooms v) ∧
    (∀ u : User, u.hospitalId = none → ∀ h : String,
      ("hospital:" ++ h) ∉ joinUserRooms u) := by
  refine ⟨?_, ?_, ?_⟩
  · rintro ⟨id, role, act, ho, ph, la, ins⟩ r
    cases ho <;> cases ph <;> cases la <;> cases ins <;>
      simp [joinUserRooms, topicsFor] <;> tauto
  · rintro ⟨id, role, act, ho, ph, la, ins⟩ ⟨id', role', act', ho', ph', la', ins'⟩
      h1 h2 h3 h4 h5 h6
    simp_all [joinUserRooms]
  · rintro ⟨id, role, act, ho, ph, la, ins⟩ hho h
    simp only at hho
    subst hho
    cases ph <;> cases la <;> cases ins <;>
      simp [joinUserRooms, hosp_ne_user, hosp_ne_role, hosp_ne_pharm,
        hosp_ne_lab, hosp_ne_insur, hosp_ne_super]

/-- Witness for C5 at concrete identities. -/
theorem C5_topics_exact_w :
    ("user:" ++ "U1" ∈ joinUserRooms docU1 ↔ "user:" ++ "U1" ∈ topicsFor docU1) ∧
    joinUserRooms docNoHosp = joinUserRooms docNoHospInactive ∧
    ("hospital:" ++ "H1") ∉ joinUserRooms docNoHosp :=
  ⟨C5_topics_exact.1 docU1 ("user:" ++ "U1"),
   C5_topics_exact.2.1 docNoHosp docNoHospInactive rfl rfl rfl rfl rfl rfl,
   C5_topics_exact.2.2 docNoHosp rfl "H1"⟩

/-! ## C4 -/

/-- C4 counterexample: with a doctor and a hospital admin connected, a
descriptor carrying neither a role nor an organization id (the
unrecognized/empty descriptor case) does not perform zero deliveries —
`notifySystemAlert` falls through to `io.emit` and the alert reaches both
connected sockets, and no error is surfaced (the function has no failure
outcome at all). -/
theorem C4_empty_descriptor_broadcasts :
    notifySystemAlert rtTwo none none = ["s1", "s2"] ∧
    rtTwo.sockets.length = 2 := by decide

/-- C4 amended: dispatch with a descriptor of no recognized kind (neither
`targetRole` nor `organizationId` set) surfaces no error and delivers to
exactly the set of all connected sockets — the widest possible audience,
not zero deliveries. -/
theorem C4_empty_descriptor_reaches_all (st : RtState) (sid : String) :
    sid ∈ notifySystemAlert st none none ↔ ∃ s ∈ st.sockets, s.sid = sid := by
  simp [notifySystemAlert, emitToAll, List.mem_map]

/-! ## C2 -/

/-- C2 counterexample: `U3` has one session and one live connection;
`logoutAll` (which awaits `revokeAllUserTokens`) deletes the session but
the identity still has a live connection when the call returns — not zero
live connections. -/
theorem C2_connection_survives_revokeAll :
    (liveConnections (logoutAll
        { sessions := [{ token := "tok3", expiresAt := 100, user := patU3 }],
          rt := handleConnection rt0 patU3 "s3" } "U3").rt "U3").length ≠ 0 ∧
    (logoutAll
        { sessions := [{ token := "tok3", expiresAt := 100, user := patU3 }],
          rt := handleConnection rt0 patU3 "s3" } "U3").sessions = [] := by decide

/-- C2 amended: `revokeAll` (as invoked by `logoutAll`) deletes every
session row for the identity but performs no forced disconnect: the
realtime registry is left completely unchanged, so every live connection
of the revoked identity survives the call and keeps its registration until
it naturally disconnects. -/
theorem C2_revokeAll_leaves_connections (sys : SysState) (userId : String) :
    ((logoutAll sys userId).sessions.filter (fun s => s.user.id = userId)) = [] ∧
    (logoutAll sys userId).rt = sys.rt := by
  constructor
  · simp only [logoutAll, revokeAllUserTokens, List.filter_filter]
    apply List.filter_eq_nil_iff.mpr
    intro a _
    simp
  · rfl

/-! ## C7 -/

/-- C7: the code keeps a single socket id per user.  With `U1` connecting
socket `s1` and then socket `s2`: only `s2` remains in the `userSockets`
registry and only `s2` receives a user-targeted push (the claim asserts
both would), even though both sockets are still live; and when the stale
first socket `s1` later disconnects, the handler deletes the user's entry
wholesale, leaving the still-live `s2` unreachable by `sendToUser`. -/
theorem C7_second_connection_overwrites :
    mapGet (handleConnection (handleConnection rt0 docU1 "s1") docU1 "s2").userSockets "U1"
      = some "s2" ∧
    (sendToUser (handleConnection (handleConnection rt0 docU1 "s1") docU1 "s2") "U1").1
      = ["s2"] ∧
    (liveConnections (handleConnection (handleConnection rt0 docU1 "s1") docU1 "s2") "U1").length
      = 2 ∧
    sendToUser
      (handleDisconnect (handleConnection (handleConnection rt0 docU1 "s1") docU1 "s2") docU1 "s1")
      "U1" = ([], false) := by decide

/-! ## C1 -/

/-- The single ledger row created by the C1 scenario call. -/
def rowU1 : Notification :=
  { id := 0, userId := "U1", type := "PRESCRIPTION_READY", title := "Prescription Ready",
    message := "m", isRead := false, readAt := none, createdAt := 5 }

/-- C1: in the spec scenario (doctor `U1` connected, hospital peer `U2`
connected, dispatcher calls notify for `U1`), `createNotification`
creates exactly one ledger row for `U1`, but the live push reaches nobody
— not `U1` either: the emit targets room `"user_U1"` (underscore) while
`U1`'s authenticated socket joined `"user:U1"` (colon), a room that would
have delivered to exactly `U1`'s socket. -/
theorem C1_live_push_lost :
    createNotification true dbEmpty (some rtTwo) "U1" "PRESCRIPTION_READY"
        "Prescription Ready" "m" 5
      = .ok ({ rows := [rowU1], nextId := 1 }, [], rowU1) ∧
    emitToRoom rtTwo ("user_" ++ "U1") = [] ∧
    emitToRoom rtTwo ("user:" ++ "U1") = ["s1"] :=
  ⟨by rfl, by decide, by decide⟩

/-! ## C3 -/

/-- C3 counterexample: when the durable write fails, `createNotification`
does raise the error, but the business-facing wrapper
`sendPrescriptionNotification` catches it and resolves normally (ledger
unchanged, nothing pushed, no error value) — the failure does not
propagate to the calling business collaborator. -/
theorem C3_wrapper_swallows_failure :
    createNotification false dbEmpty none "P1" "PRESCRIPTION_READY" "t" "m" 7
      = .error "Create notification error" ∧
    sendPrescriptionNotification false dbEmpty none "P1" "PRESCRIPTION_READY" "RX1" "Dora" 7
      = .ok (dbEmpty, []) :=
  ⟨rfl, rfl⟩

/-- C3 amended: the durable row is written before any live push (every
successful call's output ledger is the input ledger extended with the
created row, and the push list exists only in the success outcome); if the
durable write fails, no live push is emitted and `createNotification`
raises the error — but `sendPrescriptionNotification` catches it and
returns normally, so the failure is not surfaced to its caller. -/
theorem C3_ledger_before_push (db : Ledger) (io : Option RtState)
    (userId type title message pnum dname : String) (now : Nat) :
    createNotification false db io userId type title message now
      = .error "Create notification error" ∧
    (∀ db2 pushed n, createNotification true db io userId type title message now
      = .ok (db2, pushed, n) → db2.rows = db.rows ++ [n] ∧ n.createdAt = now) ∧
    sendPrescriptionNotification false db io userId type pnum dname now
      = .ok (db, []) := by
  refine ⟨rfl, ?_, rfl⟩
  intro db2 pushed n h
  simp only [createNotification, ledgerCreate, if_true] at h
  obtain ⟨rfl, rfl, rfl⟩ := by simpa using h
  exact ⟨rfl, rfl⟩

/-! ## C6 -/

/-- C6: under the issuance invariant that every stored session token passes
`jwt.verify`, both the HTTP middleware and the socket handshake fail
exactly when no session row exists for the token, or the session has
expired, or the owning user is inactive; and on success both return the
session's resolved user (who carries role and affiliations). -/
theorem C6_validate_iff (jwtValid : String → Bool) (db : List SessionRow)
    (now : Nat) (t : String) (hj : ∀ s ∈ db, jwtValid s.token = true) :
    ((∃ st msg, authMiddleware jwtValid db now (some t) = .err st msg) ↔
      (db.find? (fun s => s.token = t) = none ∨
        ∃ s, db.find? (fun s => s.token = t) = some s ∧
          (s.expiresAt < now ∨ s.user.isActive = false))) ∧
    (∀ u, authMiddleware jwtValid db now (some t) = .ok u →
      ∃ s, db.find? (fun s => s.token = t) = some s ∧ u = s.user) ∧
    ((∃ msg, authenticateSocket jwtValid db now (some t) = .error msg) ↔
      (db.find? (fun s => s.token = t) = none ∨
        ∃ s, db.find? (fun s => s.token = t) = some s ∧
          (s.expiresAt < now ∨ s.user.isActive = false))) ∧
    (∀ u, authenticateSocket jwtValid db now (some t) = .ok u →
      ∃ s, db.find? (fun s => s.token = t) = some s ∧ u = s.user) := by
  by_cases hjv : jwtValid t = true
  · cases hfind : db.find? (fun s => s.token = t) with
    | none =>
      simp [authMiddleware, authenticateSocket, hjv, hfind]
    | some s =>
      by_cases hexp : s.expiresAt < now
      · simp [authMiddleware, authenticateSocket, hjv, hfind, hexp]
      · by_cases hact : s.user.isActive = true
        · simp [authMiddleware, authenticateSocket, hjv, hfind, hexp, hact]
        · simp [authMiddleware, authenticateSocket, hjv, hfind, hexp, hact]
  · have hfind : db.find? (fun s => s.token = t) = none := by
      cases hfind : db.find? (fun s => s.token = t) with
      | none => rfl
      | some s =>
        have hmem := List.mem_of_find?_eq_some hfind
        have htok : s.token = t := by simpa using List.find?_some hfind
        exact absurd (htok ▸ hj s hmem) hjv
    simp [authMiddleware, authenticateSocket, hjv, hfind]

/-- Session fixture: one valid session for the doctor. -/
def dbTok : List SessionRow := [{ token := "tok1", expiresAt := 100, user := docU1 }]

/-- Witness for C6: a token with no session row is rejected. -/
theorem C6_validate_iff_w :
    ∃ st msg, authMiddleware (fun s => s == "tok1") dbTok 5 (some "nope")
      = AuthResult.err st msg :=
  ((C6_validate_iff (fun s => s == "tok1") dbTok 5 "nope" (by decide)).1).mpr
    (Or.inl (by decide))

/-- Witness for C3: applying the write-before-push direction at the C1
scenario input. -/
theorem C3_ledger_before_push_w :
    ({ rows := [rowU1], nextId := 1 } : Ledger).rows = dbEmpty.rows ++ [rowU1] ∧
    rowU1.createdAt = 5 :=
  (C3_ledger_before_push dbEmpty (some rtTwo) "U1" "PRESCRIPTION_READY"
      "Prescription Ready" "m" "RX1" "D" 5).2.1
    { rows := [rowU1], nextId := 1 } [] rowU1 (by rfl)

/-! ## C8 -/

/-- An inactive patient. -/
def patInactive : User :=
  { id := "U9", role := "PATIENT", isActive := false, hospitalId := none,
    pharmacyId := none, laboratoryId := none, insuranceId := none }

/-- Sessions for C8: one expired, one owned by an inactive user. -/
def dbTwoCauses : List SessionRow :=
  [{ token := "tokExp", expiresAt := 1, user := docU1 },
   { token := "tokInact", expiresAt := 100, user := patInactive }]

/-- C8 counterexample: two failing bearer tokens — one whose session has
expired and one whose owning account is inactive — both get status 401 but
different response bodies, so the rejections are not identical. -/
theorem C8_bodies_differ :
    authMiddleware (fun _ => true) dbTwoCauses 50 (some "tokExp")
      = .err 401 "Invalid or expired token" ∧
    authMiddleware (fun _ => true) dbTwoCauses 50 (some "tokInact")
      = .err 401 "Account is disabled" ∧
    authMiddleware (fun _ => true) dbTwoCauses 50 (some "tokExp")
      ≠ authMiddleware (fun _ => true) dbTwoCauses 50 (some "tokInact") := by
  decide

/-- C8 amended: every authentication failure carries status 401, and the
body is identical across the expired / revoked / never-existed causes (all
map to a missing or expired session row and get `Invalid or expired
token`); but an inactive account and a malformed JWT get distinct bodies
(`Account is disabled`, `Invalid token`), so only the status — not the
whole rejection — is cause-independent. -/
theorem C8_all_failures_401 (jwtValid : String → Bool) (db : List SessionRow)
    (now : Nat) (tok : Option String) :
    (∀ st msg, authMiddleware jwtValid db now tok = .err st msg → st = 401) ∧
    (∀ t : String, tok = some t → jwtValid t = true →
      (db.find? (fun s => s.token = t) = none ∨
        ∃ s, db.find? (fun s => s.token = t) = some s ∧ s.expiresAt < now) →
      authMiddleware jwtValid db now tok = .err 401 "Invalid or expired token") := by
  constructor
  · intro st msg h
    cases tok with
    | none =>
      simp [authMiddleware] at h
      omega
    | some t =>
      by_cases hjv : jwtValid t = true
      · cases hfind : db.find? (fun s => s.token = t) with
        | none =>
          simp [authMiddleware, hjv, hfind] at h
          omega
        | some s =>
          by_cases hexp : s.expiresAt < now
          · simp [authMiddleware, hjv, hfind, hexp] at h
            omega
          · by_cases hact : s.user.isActive = true
            · simp [authMiddleware, hjv, hfind, hexp, hact] at h
            · simp [authMiddleware, hjv, hfind, hexp, hact] at h
              omega
      · simp [authMiddleware, hjv] at h
        omega
  · rintro t rfl hjv hcause
    rcases hcause with hnone | ⟨s, hfind, hexp⟩
    · simp [authMiddleware, hjv, hnone]
    · simp [authMiddleware, hjv, hfind, hexp]

/-- Witness for C8's amended statement: a never-issued token gets the
generic 401. -/
theorem C8_all_failures_401_w :
    authMiddleware (fun _ => true) dbTwoCauses 50 (some "ghost")
      = .err 401 "Invalid or expired token" :=
  (C8_all_failures_401 (fun _ => true) dbTwoCauses 50 (some "ghost")).2
    "ghost" rfl rfl (Or.inl (by decide))

/-! ## C9 -/

/-- An unread chat notification for patient `P1`. -/
def rowC9 : Notification :=
  { id := 1, userId := "P1", type := "CHAT_MESSAGE", title := "t", message := "m",
    isRead := false, readAt := none, createdAt := 0 }

/-- The row `rowC9` after being marked read at time 5. -/
def rowC9a : Notification := { rowC9 with isRead := true, readAt := some 5 }

/-- The row `rowC9` after being marked read at time 9. -/
def rowC9b : Notification := { rowC9 with isRead := true, readAt := some 9 }

/-- C9 counterexample: marking the same notification read twice leaves
`isRead = true`, but the second call overwrites the stored `readAt` with
its own timestamp — the stored `readAt` changes from `some 5` to `some 9`,
not one consistent timestamp. -/
theorem C9_readAt_overwritten :
    markAsRead [rowC9] "P1" 1 5 = .ok [rowC9a] rowC9a ∧
    markAsRead [rowC9a] "P1" 1 9 = .ok [rowC9b] rowC9b ∧
    rowC9b.readAt ≠ rowC9a.readAt := by decide

/-- Lookup (`find?`) by id commutes with mapping an id-preserving update over the
table. -/
theorem find?_id_map (db : List Notification) (id : Nat)
    (g : Notification → Notification) (hg : ∀ m, (g m).id = m.id) :
    (db.map g).find? (fun m => m.id = id) = (db.find? (fun m => m.id = id)).map g := by
  have hp : ((fun m : Notification => decide (m.id = id)) ∘ g)
      = fun m : Notification => decide (m.id = id) := by
    funext m
    simp [Function.comp, hg]
  rw [List.find?_map, hp]

/-- C9 amended: marking a notification read twice (sequentially) succeeds
both times and leaves `isRead = true`, but `readAt` is set to the most
recent call's timestamp — each call overwrites the stored `readAt`; the
unread count is computed as a direct count and is never negative. -/
theorem C9_second_mark_restamps (db : List Notification) (uid : String)
    (id t1 t2 : Nat) (db1 : List Notification) (n1 : Notification)
    (h1 : markAsRead db uid id t1 = .ok db1 n1) :
    (∃ db2 n2, markAsRead db1 uid id t2 = .ok db2 n2 ∧
      n2.isRead = true ∧ n2.readAt = some t2) ∧
    ∀ (d : List Notification) (u : String), 0 ≤ unreadCount d u := by
  refine ⟨?_, fun d u => Nat.zero_le _⟩
  cases hf : db.find? (fun n => n.id = id) with
  | none => simp [markAsRead, hf] at h1
  | some n =>
    by_cases hown : n.userId ≠ uid
    · simp [markAsRead, hf, hown] at h1
    · simp only [markAsRead, hf] at h1
      rw [if_neg hown] at h1
      injection h1 with hdb hn
      subst hdb
      have hnid : n.id = id := by simpa using List.find?_some hf
      have huid : n.userId = uid := not_not.mp hown
      have hfind2 := find?_id_map db id
        (fun m => if m.id = id then { m with isRead := true, readAt := some t1 } else m)
        (by intro m; by_cases hm : m.id = id <;> simp [hm])
      rw [hf] at hfind2
      simp only [Option.map_some'] at hfind2
      rw [if_pos hnid] at hfind2
      refine ⟨(db.map (fun m =>
            if m.id = id then { m with isRead := true, readAt := some t1 } else m)).map
          (fun m => if m.id = id then { m with isRead := true, readAt := some t2 } else m),
        { n with isRead := true, readAt := some t2 }, ?_, rfl, rfl⟩
      simp only [markAsRead, hfind2]
      rw [if_neg (not_not.mpr huid)]

/-- Witness for C9's amended statement at the concrete fixture. -/
theorem C9_second_mark_restamps_w :
    ∃ db2 n2, markAsRead [rowC9a] "P1" 1 9 = .ok db2 n2 ∧
      n2.isRead = true ∧ n2.readAt = some 9 :=
  (C9_second_mark_restamps [rowC9] "P1" 1 5 9 [rowC9a] rowC9a (by decide)).1

/-! ## C10 -/

/-- C10: bulk mark-all-read preserves the table's length and, row by row,
leaves every notification that belongs to a different user or is already
read entirely unchanged (including its `readAt`), while each of the
requesting user's unread rows becomes read with `readAt` stamped now. -/
theorem C10_markAll_frame (db : List Notification) (uid : String) (now : Nat) :
    (markAllAsRead db uid now).length = db.length ∧
    ∀ (i : Nat) (hi : i < db.length) (hj : i < (markAllAsRead db uid now).length),
      ((db.get ⟨i, hi⟩).userId ≠ uid ∨ (db.get ⟨i, hi⟩).isRead = true →
        (markAllAsRead db uid now).get ⟨i, hj⟩ = db.get ⟨i, hi⟩) ∧
      ((db.get ⟨i, hi⟩).userId = uid ∧ (db.get ⟨i, hi⟩).isRead = false →
        (markAllAsRead db uid now).get ⟨i, hj⟩ =
          { db.get ⟨i, hi⟩ with isRead := true, readAt := some now }) := by
  refine ⟨by simp [markAllAsRead], ?_⟩
  intro i hi hj
  have hget : (markAllAsRead db uid now).get ⟨i, hj⟩ =
      if (db.get ⟨i, hi⟩).userId = uid ∧ (db.get ⟨i, hi⟩).isRead = false then
        { db.get ⟨i, hi⟩ with isRead := true, readAt := some now }
      else db.get ⟨i, hi⟩ := by
    simp [markAllAsRead]
  constructor
  · intro hcond
    rw [hget, if_neg]
    rcases hcond with h | h
    · exact fun hc => h hc.1
    · intro hc
      rw [h] at hc
      cases hc.2
  · intro hcond
    rw [hget, if_pos hcond]

/-- Witness for C10: a row of a different user is untouched by the bulk
mark. -/
theorem C10_markAll_frame_w :
    (markAllAsRead [rowC9a] "P2" 9).get ⟨0, by decide⟩ = rowC9a :=
  ((C10_markAll_frame [rowC9a] "P2" 9).2 0 (by decide) (by decide)).1
    (Or.inl (by decide))

end Nurox
